import Mathlib

/-!
Shallow embedding of `src/app.py` (RAG query tool over a legal case file)
and proofs of the specification claims about it.

Python values that appear in chunk dictionaries are modelled by `PyVal`
(floats and ints as exact rationals); a Python `dict` is an association
list with first-match lookup, which matches `dict` observations made by
the program (key lookup, `in`, `.get`, copy + single-key insert).
-/

/-- A Python value as stored in a chunk dictionary: a string, a number
(Python `float`/`int`, modelled exactly as a rational), or a list of
strings (the `personas_mencionadas` field). -/
inductive PyVal where
  | str : String → PyVal
  | num : ℚ → PyVal
  | listStr : List String → PyVal
deriving DecidableEq, Repr

/-- A Python dictionary with string keys, as an association list. -/
abbrev PyDict := List (String × PyVal)

/-- First-match lookup in an association list: `d[k]` / `k in d`. -/
def lookupKey {α : Type} : List (String × α) → String → Option α
  | [], _ => none
  | (k1, v) :: rest, k => if k1 = k then some v else lookupKey rest k

/-- Python list indexing `l[i]` with an `int` index: non-negative indices
are absolute, negative indices count from the end; `none` models an
`IndexError` being raised. -/
def pyIndex {α : Type} (l : List α) (i : ℤ) : Option α :=
  if 0 ≤ i then l.get? i.toNat
  else if -(l.length : ℤ) ≤ i then l.get? (l.length - (-i).toNat)
  else none

/-- The embedding model (`SentenceTransformer`): `encode` maps a query
string to a dense vector (`normalize_embeddings=True` is internal to the
external model and not observable here). -/
structure Modelo where
  encode : String → List ℚ

/-- The FAISS index: `search v k` returns the row `zip(scores[0], indices[0])`
of parallel score/position arrays for the single query vector `v`.
FAISS's contract is that both arrays have exactly `k` entries, padded with
position `-1` when fewer than `k` vectors exist; that contract is taken as
a hypothesis (`length = k`) where a claim needs it. -/
structure FaissIndex where
  search : List ℚ → ℕ → List (ℚ × ℤ)

/-- The result-accumulation loop of `buscar_documentos` (src/app.py lines
164-171): for each `(score, idx)` pair, if `idx < len(chunks)` then
`chunk = chunks[idx].copy(); chunk["score"] = float(score)` is appended,
else the pair is skipped.  `none` models an uncaught `IndexError` from
`chunks[idx]` (possible only for `idx < -len(chunks)`, since the guard
`idx < len(chunks)` does not exclude negative indices). -/
def buscarDocs : List (ℚ × ℤ) → List PyDict → Option (List PyDict)
  | [], _ => some []
  | (s, i) :: rest, chunks =>
    if i < (chunks.length : ℤ) then
      match pyIndex chunks i with
      | none => none
      | some c => (buscarDocs rest chunks).map (fun tl => (("score", PyVal.num s) :: c) :: tl)
    else buscarDocs rest chunks

/-- `buscar_documentos(consulta, modelo, index, chunks, top_k)`
(src/app.py lines 159-171): encode the query, search the index, then run
the accumulation loop. -/
def buscar_documentos (consulta : String) (modelo : Modelo) (index : FaissIndex)
    (chunks : List PyDict) (top_k : ℕ) : Option (List PyDict) :=
  buscarDocs (index.search (modelo.encode consulta) top_k) chunks

/-- The same loop rendered with the chunk store threaded through
explicitly, to make the frame property visible: each iteration only
*reads* the store (`chunks[idx]`), mutates a fresh copy
(`chunk = chunks[idx].copy(); chunk["score"] = ...`), and never writes
back, so the store component returned is the store the loop leaves
behind. -/
def buscarDocsSt : List (ℚ × ℤ) → List PyDict → Option (List PyDict) × List PyDict
  | [], store => (some [], store)
  | (s, i) :: rest, store =>
    if i < (store.length : ℤ) then
      match pyIndex store i with
      | none => (none, store)
      | some c =>
        let copia := c
        let conScore := ("score", PyVal.num s) :: copia
        match buscarDocsSt rest store with
        | (none, st2) => (none, st2)
        | (some tl, st2) => (some (conScore :: tl), st2)
    else buscarDocsSt rest store

/-- The process-wide loaded state: embedding model, FAISS index, chunk
store and the `CONFIG` case metadata, all loaded once
(`cargar_modelo` / `cargar_indice` / module top level of src/app.py). -/
structure AppState where
  modelo : Modelo
  index : FaissIndex
  chunks : List PyDict
  config : PyDict

/-- `buscar_documentos` as a transition on the loaded state: it returns
the result list together with the state it leaves behind. -/
def buscar_documentos_run (st : AppState) (consulta : String) (top_k : ℕ) :
    Option (List PyDict) × AppState :=
  let pairs := st.index.search (st.modelo.encode consulta) top_k
  let out := buscarDocsSt pairs st.chunks
  (out.1, { st with chunks := out.2 })

/-- Left-pad a fraction-part numeral to three digits. -/
def pad3 (m : ℕ) : String :=
  if m < 10 then "00" ++ toString m
  else if m < 100 then "0" ++ toString m
  else toString m

/-- Python `f"{q:.3f}"` on a number: round to the nearest thousandth and
print with exactly three decimals. -/
def format3 (q : ℚ) : String :=
  let n : ℤ := round (q * 1000)
  let a := n.natAbs
  (if n < 0 then "-" else "") ++ toString (a / 1000) ++ "." ++ pad3 (a % 1000)

/-- Python `str()` / f-string rendering of a stored value. -/
def pyStr : PyVal → String
  | .str s => s
  | .num q => if q.den = 1 then toString q.num else toString q
  | .listStr l => toString l

/-- Python `r[k]`: the value, or a raised `KeyError` (`Except.error`). -/
def getItem (r : PyDict) (k : String) : Except String PyVal :=
  match lookupKey r k with
  | some v => .ok v
  | none => .error ("KeyError: " ++ k)

/-- Python `f"{v:.3f}"`: only numbers support format code `f`; on any
other value the f-string raises (ValueError for strings, TypeError for
lists — both modelled as the same raised error). -/
def format3f (v : PyVal) : Except String String :=
  match v with
  | .num q => .ok (format3 q)
  | _ => .error "ValueError: unknown format code f"

/-- `', '.join(r.get('personas_mencionadas', [])) or 'N/A'`
(src/app.py line 179): a missing key defaults to `[]`; a join that
yields the empty string is falsy, giving `'N/A'`; joining a non-list (or
a list of non-strings) raises TypeError. -/
def personasStr (r : PyDict) : Except String String :=
  match lookupKey r "personas_mencionadas" with
  | none => .ok "N/A"
  | some (.listStr l) =>
    let s := String.intercalate ", " l
    .ok (if s = "" then "N/A" else s)
  | some _ => .error "TypeError: can only join strings"

/-- One entry of the context block (the f-string at src/app.py lines
177-180), for the fragment at 0-based position `i`; key lookups are
evaluated left to right, so the first missing key raises. -/
def contexto_entry (i : ℕ) (r : PyDict) : Except String String := do
  let archivo ← getItem r "archivo_original"
  let tipo ← getItem r "tipo_documento"
  let pagina ← getItem r "pagina"
  let score ← getItem r "score"
  let scoreS ← format3f score
  let personas ← personasStr r
  let texto ← getItem r "texto"
  .ok ("[" ++ toString (i + 1) ++ "] Documento: " ++ pyStr archivo ++ " | Tipo: "
     ++ pyStr tipo ++ " | Página: " ++ pyStr pagina ++ " | Relevancia: " ++ scoreS
     ++ "\nPersonas mencionadas: " ++ personas ++ "\n" ++ pyStr texto)

/-- The list comprehension `[f"..." for i, r in enumerate(resultados)]`:
entries in input order, numbered from `i`, stopping at the first raised
error. -/
def contexto_entries (i : ℕ) : List PyDict → Except String (List String)
  | [] => .ok []
  | r :: rest => do
    let e ← contexto_entry i r
    let tl ← contexto_entries (i + 1) rest
    .ok (e :: tl)

/-- `contexto = "\n\n".join([...])` (src/app.py lines 176-182). -/
def contexto_build (resultados : List PyDict) : Except String String := do
  let es ← contexto_entries 0 resultados
  .ok (String.intercalate "\n\n" es)

/-- `SYSTEM_PROMPT_CASO` up to the `contexto` placeholder (src/app.py
lines 62-90). -/
def sysPromptPre : String :=
  "Eres un asistente legal especializado en derecho penal peruano, trabajando para la DEFENSA del investigado Raúl Antonio Oliva Guerrero.\n\n"
  ++ "CASO: Expediente 00203-2024-23-5001-JR-PE-01\n"
  ++ "DELITOS IMPUTADOS: Organización Criminal (Art. 317 CP) y Tráfico de Influencias (Art. 400 CP)\n"
  ++ "JUZGADO: 1er Juzgado de Investigación Preparatoria Nacional\n"
  ++ "JUEZ: Richard Augusto Concepción Carhuancho\n"
  ++ "FISCALÍA: EFICCOP - Equipo 5\n\n"
  ++ "SOBRE EL DEFENDIDO:\n"
  ++ "- Raúl Antonio Oliva Guerrero fue Director de la Dirección de Autoridades Políticas del Ministerio del Interior\n"
  ++ "- Se le imputa ser \"operador funcionarial\" de una presunta organización criminal\n"
  ++ "- Designado el 01/03/2023 mediante R.M. n.° 0298-2023-IN\n\n"
  ++ "TU ROL:\n"
  ++ "1. Responde basándote ÚNICAMENTE en los documentos del caso proporcionados como contexto\n"
  ++ "2. Identifica tanto los elementos de cargo como posibles argumentos de defensa\n"
  ++ "3. Cita siempre el documento fuente, página y sección\n"
  ++ "4. Si detectas contradicciones o debilidades en la acusación, señálalas\n"
  ++ "5. Sé preciso con nombres, fechas y cargos\n"
  ++ "6. Si no encuentras información en el contexto, dilo claramente\n\n"
  ++ "FORMATO DE RESPUESTA:\n"
  ++ "- **Respuesta:** (resumen directo)\n"
  ++ "- **Detalle:** (análisis con citas del expediente)\n"
  ++ "- **Fuentes:** (documento, página)\n"
  ++ "- **Nota para la defensa:** (si aplica, observaciones estratégicas)\n\n"
  ++ "CONTEXTO DE DOCUMENTOS DEL CASO:\n"

/-- `SYSTEM_PROMPT_CASO` between the `contexto` and `consulta`
placeholders. -/
def sysPromptMid : String := "\n\n---\nCONSULTA:\n"

/-- `SYSTEM_PROMPT_CASO.format(contexto=..., consulta=...)`
(src/app.py line 184): substitution into the fixed template; total, so
prompt construction cannot fail once `contexto` is built. -/
def system_prompt_format (contexto consulta : String) : String :=
  sysPromptPre ++ contexto ++ sysPromptMid ++ consulta

/-- The observable outcome of `requests.post` at src/app.py line 199:
either the call raised (ConnectionError, Timeout, ...) with exception
text `e`, or a response arrived. -/
structure HttpResponse where
  /-- HTTP status code. -/
  status : ℕ
  /-- `response.json()["choices"][0]["message"]["content"]` when that
  path exists in a JSON body; `none` when decoding or any step of the
  path raises. -/
  contentAtPath : Option String
deriving DecidableEq, Repr

/-- Outcome of the outbound network call. -/
inductive NetOutcome where
  | raised : String → NetOutcome
  | responded : HttpResponse → NetOutcome
deriving DecidableEq, Repr

/-- The designated error text built by the `except` clause
(src/app.py line 203). -/
def errorHeader : String := "Error al consultar IA: "

/-- `consultar_deepseek(consulta, resultados)` (src/app.py lines
174-203), parametrised by the network outcome.  The context block and
prompt are built *outside* the `try`, so an error raised there escapes
(`Except.error`); everything from `requests.post` through extracting the
message content is inside `try ... except Exception`, whose handler
returns `f"Error al consultar IA: {str(e)}"`.  `raise_for_status` raises
`HTTPError` exactly for status codes 400-599. -/
def consultar_deepseek (net : NetOutcome) (consulta : String)
    (resultados : List PyDict) : Except String String := do
  let contexto ← contexto_build resultados
  let _prompt := system_prompt_format contexto consulta
  match net with
  | .raised e => .ok (errorHeader ++ e)
  | .responded r =>
    if 400 ≤ r.status then .ok (errorHeader ++ "HTTPError: " ++ toString r.status)
    else
      match r.contentAtPath with
      | some c => .ok c
      | none => .ok (errorHeader ++ "KeyError: choices")

/-- `cargar_indice()` (src/app.py lines 104-115), parametrised by
whether `INDEX_PATH` and `CHUNKS_PATH` exist and by the file contents:
if either file is missing it returns the sentinel `(None, None)`,
otherwise the loaded pair. -/
def cargar_indice (indexExists chunksExists : Bool) (indexFile : FaissIndex)
    (chunksFile : List PyDict) : Option FaissIndex × Option (List PyDict) :=
  if !indexExists || !chunksExists then (none, none)
  else (some indexFile, some chunksFile)

/-- The guard in `main` (src/app.py lines 388-390): `if index is None or
chunks is None:` show an error and `return` before any tab (and hence
any query) runs. -/
def main_refuses_queries (index : Option FaissIndex)
    (chunks : Option (List PyDict)) : Bool :=
  index.isNone || chunks.isNone

/-- Streamlit session state relevant to authentication. -/
structure SessionState where
  autenticado : Bool
  usuario : Option String
deriving DecidableEq, Repr

/-- The hard-coded credential fallback (src/app.py lines 55-59). -/
def USUARIOS : List (String × String) :=
  [("raul", "caso2024"), ("abogado", "defensa2024"), ("juan", "admin2024")]

/-- The button handler of `verificar_login` (src/app.py lines 285-292):
`if usuario in USUARIOS and USUARIOS[usuario] == clave` set
`autenticado`/`usuario` in session state; otherwise leave the state
unchanged and show `st.error("Credenciales incorrectas")` (returned here
as the second component). -/
def verificar_login_attempt (usuarios : List (String × String))
    (st : SessionState) (usuario clave : String) : SessionState × Option String :=
  if lookupKey usuarios usuario = some clave then
    ({ autenticado := true, usuario := some usuario }, none)
  else (st, some "Credenciales incorrectas")

/-- The logout button handler (src/app.py lines 380-383): reset both
session-state fields. -/
def cerrar_sesion (_st : SessionState) : SessionState :=
  { autenticado := false, usuario := none }

/-- A fragment dictionary shaped like a ScoredChunk: the five keys read
by the f-string are present, `score` holds a number (a Python float),
and `personas_mencionadas`, when present, holds a list of strings. -/
def wfFrag (r : PyDict) : Bool :=
  (lookupKey r "archivo_original").isSome &&
  (lookupKey r "tipo_documento").isSome &&
  (lookupKey r "pagina").isSome &&
  (match lookupKey r "score" with | some (.num _) => true | _ => false) &&
  (lookupKey r "texto").isSome &&
  (match lookupKey r "personas_mencionadas" with
   | none => true | some (.listStr _) => true | some _ => false)

/-- Stated from the spec's words, for comparison with `contexto_entry`:
"a numbered header (source document, document type, page, score
formatted to 3 decimals, comma-joined list of mentioned persons or a
placeholder when empty) followed by the fragment's raw text". -/
def entry_spec (i : ℕ) (r : PyDict) : String :=
  let archivo := pyStr ((lookupKey r "archivo_original").getD (.str ""))
  let tipo := pyStr ((lookupKey r "tipo_documento").getD (.str ""))
  let pagina := pyStr ((lookupKey r "pagina").getD (.str ""))
  let score := match lookupKey r "score" with | some (.num q) => format3 q | _ => ""
  let personas := match lookupKey r "personas_mencionadas" with
    | some (.listStr l) =>
      let s := String.intercalate ", " l
      if s = "" then "N/A" else s
    | _ => "N/A"
  let texto := pyStr ((lookupKey r "texto").getD (.str ""))
  "[" ++ toString (i + 1) ++ "] Documento: " ++ archivo ++ " | Tipo: " ++ tipo
    ++ " | Página: " ++ pagina ++ " | Relevancia: " ++ score
    ++ "\nPersonas mencionadas: " ++ personas ++ "\n" ++ texto

/-- Spec-side entry list: one entry per fragment, in input order,
numbered from `i`. -/
def contexto_spec_entries (i : ℕ) : List PyDict → List String
  | [] => []
  | r :: rest => entry_spec i r :: contexto_spec_entries (i + 1) rest

/-- Stated from the spec's words: the context block is the entries for
the fragments in input order, consecutive entries separated by a blank
line; for the empty fragment list it is the empty string. -/
def contexto_spec (resultados : List PyDict) : String :=
  String.intercalate "\n\n" (contexto_spec_entries 0 resultados)

/-- Stated from the amended claim, for comparison with `buscarDocs`:
keep exactly the pairs whose position is `< len(chunks)` (positions
`≥ len(chunks)` are skipped; negative positions are kept and resolve
end-relative via `pyIndex`), and attach the score to a copy of the
selected chunk. -/
def buscarSpec : List (ℚ × ℤ) → List PyDict → List PyDict
  | [], _ => []
  | (s, i) :: rest, chunks =>
    if i < (chunks.length : ℤ) then
      (("score", PyVal.num s) :: ((pyIndex chunks i).getD [])) :: buscarSpec rest chunks
    else buscarSpec rest chunks

/-- Concrete chunk used in witnesses. -/
def demoChunkA : PyDict :=
  [("archivo_original", .str "resolucion_01.pdf"), ("tipo_documento", .str "resolucion"),
   ("pagina", .num 3), ("texto", .str "texto A"),
   ("personas_mencionadas", .listStr ["Oliva Guerrero"]),
   ("chunk_id", .str "c0"), ("documento_id", .str "d0")]

/-- Concrete chunk used in witnesses. -/
def demoChunkB : PyDict :=
  [("archivo_original", .str "acta_02.pdf"), ("tipo_documento", .str "acta"),
   ("pagina", .num 7), ("texto", .str "texto B"),
   ("personas_mencionadas", .listStr []),
   ("chunk_id", .str "c1"), ("documento_id", .str "d1")]

/-- Concrete embedding model used in witnesses. -/
def demoModelo : Modelo := ⟨fun _ => [1]⟩

/-- Concrete FAISS index used in witnesses: `search` honours the FAISS
contract of returning exactly `k` (score, position) pairs. -/
def demoIndex : FaissIndex :=
  ⟨fun _ k => (List.range k).map (fun (j : ℕ) => ((1 : ℚ), (j : ℤ)))⟩

/-- A fragment with the other four keys well-typed but no `texto` key. -/
def fragSinTexto : PyDict :=
  [("archivo_original", .str "doc.pdf"), ("tipo_documento", .str "informe"),
   ("pagina", .num 1), ("score", .num 1)]

/-- A fragment that *contains* all five keys but whose `score` value is
a string, so `f"{r['score']:.3f}"` raises ValueError. -/
def fragScoreStr : PyDict :=
  [("archivo_original", .str "doc.pdf"), ("tipo_documento", .str "informe"),
   ("pagina", .num 1), ("score", .str "alto"), ("texto", .str "t")]

/-- Every successful run of the result loop yields dictionaries whose
`score` entry is the attached number, with the score list a sublist (in
order) of the index's score column. -/
theorem buscarDocs_sound (pairs : List (ℚ × ℤ)) (chunks : List PyDict) :
    ∀ res, buscarDocs pairs chunks = some res →
    ∃ scores : List ℚ, List.Sublist scores (pairs.map Prod.fst) ∧
      res.map (fun r => lookupKey r "score") = scores.map (fun q => some (PyVal.num q)) := by
  induction pairs with
  | nil =>
    intro res h
    simp only [buscarDocs, Option.some.injEq] at h
    subst h
    exact ⟨[], by simp, by simp⟩
  | cons p rest ih =>
    obtain ⟨s, i⟩ := p
    intro res h
    simp only [buscarDocs] at h
    by_cases hi : i < (chunks.length : ℤ)
    · rw [if_pos hi] at h
      cases hp : pyIndex chunks i with
      | none => rw [hp] at h; exact absurd h (by simp)
      | some c =>
        rw [hp] at h
        cases hr : buscarDocs rest chunks with
        | none => rw [hr] at h; exact absurd h (by simp)
        | some tl =>
          rw [hr] at h
          simp only [Option.map_some', Option.some.injEq] at h
          subst h
          obtain ⟨scores, hsub, hmap⟩ := ih tl hr
          refine ⟨s :: scores, ?_, ?_⟩
          · simpa using List.Sublist.cons₂ s hsub
          · simp [lookupKey, hmap]
    · rw [if_neg hi] at h
      obtain ⟨scores, hsub, hmap⟩ := ih res h
      exact ⟨scores, by simpa using List.Sublist.cons s hsub, hmap⟩

/-- Python indexing succeeds exactly on `-len(l) ≤ i < len(l)`. -/
theorem pyIndex_some {α : Type} (l : List α) (i : ℤ)
    (h1 : -(l.length : ℤ) ≤ i) (h2 : i < (l.length : ℤ)) :
    ∃ c, pyIndex l i = some c := by
  unfold pyIndex
  by_cases h0 : 0 ≤ i
  · rw [if_pos h0]
    have hn : i.toNat < l.length := by omega
    exact ⟨l.get ⟨i.toNat, hn⟩, List.get?_eq_get hn⟩
  · rw [if_neg h0, if_pos h1]
    have hv : ((-i).toNat : ℤ) = -i := Int.toNat_of_nonneg (by omega)
    have hn : l.length - (-i).toNat < l.length := by omega
    exact ⟨l.get ⟨_, hn⟩, List.get?_eq_get hn⟩

/-- When every index position is at least `-len(chunks)` (FAISS only
ever emits valid ids or `-1`, so this covers every FAISS output against
a non-empty chunk store), the loop completes without an `IndexError` and
returns exactly the materializations of the positions `< len(chunks)`,
in order. -/
theorem buscarDocs_eq_spec (pairs : List (ℚ × ℤ)) (chunks : List PyDict)
    (h : ∀ si ∈ pairs, -(chunks.length : ℤ) ≤ si.2) :
    buscarDocs pairs chunks = some (buscarSpec pairs chunks) := by
  induction pairs with
  | nil => rfl
  | cons p rest ih =>
    obtain ⟨s, i⟩ := p
    have hhead : -(chunks.length : ℤ) ≤ i := h (s, i) (by simp)
    have htail : ∀ si ∈ rest, -(chunks.length : ℤ) ≤ si.2 :=
      fun si hsi => h si (List.mem_cons_of_mem _ hsi)
    by_cases hi : i < (chunks.length : ℤ)
    · obtain ⟨c, hc⟩ := pyIndex_some chunks i hhead hi
      simp only [buscarDocs, buscarSpec, if_pos hi, hc, ih htail, Option.map_some',
        Option.getD_some]
    · simp only [buscarDocs, buscarSpec, if_neg hi, ih htail]

/-- The store-threaded loop computes the same results as the plain loop
and returns the store it was given: the only store operation is a read,
and the `score` entry is written to a fresh copy. -/
theorem buscarDocsSt_eq (pairs : List (ℚ × ℤ)) (store : List PyDict) :
    buscarDocsSt pairs store = (buscarDocs pairs store, store) := by
  induction pairs with
  | nil => rfl
  | cons p rest ih =>
    obtain ⟨s, i⟩ := p
    simp only [buscarDocsSt, buscarDocs]
    by_cases hi : i < (store.length : ℤ)
    · rw [if_pos hi, if_pos hi]
      cases hp : pyIndex store i with
      | none => rfl
      | some c =>
        rw [ih]
        cases hr : buscarDocs rest store with
        | none => rfl
        | some tl => rfl
    · rw [if_neg hi, if_neg hi, ih]

/-- On a well-formed fragment the f-string entry succeeds and produces
exactly the entry described by the spec. -/
theorem contexto_entry_wf (i : ℕ) (r : PyDict) (h : wfFrag r = true) :
    contexto_entry i r = Except.ok (entry_spec i r) := by
  simp only [wfFrag, Bool.and_eq_true, Option.isSome_iff_exists] at h
  obtain ⟨⟨⟨⟨⟨⟨a, ha⟩, b, hb⟩, c, hc⟩, hs⟩, t, ht⟩, hp⟩ := h
  obtain ⟨q, hq⟩ : ∃ q, lookupKey r "score" = some (PyVal.num q) := by
    cases hsc : lookupKey r "score" with
    | none => rw [hsc] at hs; exact absurd hs (by simp)
    | some v =>
      cases v with
      | num q => exact ⟨q, rfl⟩
      | str s => rw [hsc] at hs; exact absurd hs (by simp)
      | listStr l => rw [hsc] at hs; exact absurd hs (by simp)
  cases hpm : lookupKey r "personas_mencionadas" with
  | none =>
    simp [contexto_entry, getItem, entry_spec, personasStr, format3f,
      ha, hb, hc, hq, ht, hpm, Bind.bind, Except.bind]
  | some v =>
    cases v with
    | listStr l =>
      simp [contexto_entry, getItem, entry_spec, personasStr, format3f,
        ha, hb, hc, hq, ht, hpm, Bind.bind, Except.bind]
    | str s => rw [hpm] at hp; exact absurd hp (by simp)
    | num n => rw [hpm] at hp; exact absurd hp (by simp)

/-- On a list of well-formed fragments the entry comprehension succeeds
and produces the spec's entry list. -/
theorem contexto_entries_wf : ∀ (l : List PyDict) (i : ℕ),
    (∀ r ∈ l, wfFrag r = true) →
    contexto_entries i l = Except.ok (contexto_spec_entries i l)
  | [], _, _ => rfl
  | r :: rest, i, h => by
    have hr := contexto_entry_wf i r (h r (by simp))
    have htl := contexto_entries_wf rest (i + 1)
      (fun x hx => h x (List.mem_cons_of_mem _ hx))
    simp [contexto_entries, contexto_spec_entries, hr, htl, Bind.bind, Except.bind]

/-- On a list of well-formed fragments the context block succeeds and is
exactly the spec's context block. -/
theorem contexto_build_wf (resultados : List PyDict)
    (h : ∀ r ∈ resultados, wfFrag r = true) :
    contexto_build resultados = Except.ok (contexto_spec resultados) := by
  have he := contexto_entries_wf resultados 0 h
  simp [contexto_build, contexto_spec, he, Bind.bind, Except.bind]

/-- C1: for every query string, loaded model/index/chunk store and
positive `top_k`, when `buscar_documentos` returns, its result list has
length at most `top_k` (given FAISS's contract that `search` returns
exactly `top_k` score/position pairs), and every returned dictionary
carries a `score` key holding a float. -/
theorem retrieve_len_le_topk_and_scores (consulta : String) (modelo : Modelo)
    (index : FaissIndex) (chunks : List PyDict) (top_k : ℕ) (hk : 0 < top_k)
    (hfaiss : ∀ v k, (index.search v k).length = k) (res : List PyDict)
    (h : buscar_documentos consulta modelo index chunks top_k = some res) :
    res.length ≤ top_k ∧ ∀ r ∈ res, ∃ q : ℚ, lookupKey r "score" = some (PyVal.num q) := by
  obtain ⟨scores, hsub, hmap⟩ :=
    buscarDocs_sound (index.search (modelo.encode consulta) top_k) chunks res h
  constructor
  · have h1 : res.length = scores.length := by
      have := congrArg List.length hmap
      simpa using this
    have h2 : scores.length ≤ (index.search (modelo.encode consulta) top_k).length := by
      have := hsub.length_le
      simpa using this
    rw [h1]
    calc scores.length ≤ _ := h2
      _ = top_k := hfaiss _ _
  · intro r hr
    have hmem : lookupKey r "score" ∈ res.map (fun r => lookupKey r "score") :=
      List.mem_map_of_mem _ hr
    rw [hmap] at hmem
    obtain ⟨q, _, hq⟩ := List.mem_map.mp hmem
    exact ⟨q, hq.symm⟩

/-- C1 witness: the theorem applied to the demo model, index and a
two-chunk store with `top_k = 2`. -/
theorem retrieve_len_le_topk_and_scores_witness :
    ([("score", PyVal.num 1) :: demoChunkA, ("score", PyVal.num 1) :: demoChunkB] :
        List PyDict).length ≤ 2 ∧
    ∀ r ∈ ([("score", PyVal.num 1) :: demoChunkA,
            ("score", PyVal.num 1) :: demoChunkB] : List PyDict),
      ∃ q : ℚ, lookupKey r "score" = some (PyVal.num q) :=
  retrieve_len_le_topk_and_scores "hola" demoModelo demoIndex [demoChunkA, demoChunkB] 2
    (by decide)
    (fun v k => by simp [demoIndex])
    _ (by decide)

/-- C2 counterexample: the claim says a negative position such as
FAISS's `-1` padding is silently skipped, so on the position list
`[-1]` against a two-chunk store the result would be empty; in fact the
guard `idx < len(chunks)` passes for `-1` and `chunks[-1]` selects the
*last* chunk, which is returned with the score attached. -/
theorem retrieve_negative_position_cex :
    buscarDocs [((1 : ℚ), (-1 : ℤ))] [demoChunkA, demoChunkB]
      = some [("score", PyVal.num 1) :: demoChunkB] ∧
    buscarDocs [((1 : ℚ), (-1 : ℤ))] [demoChunkA, demoChunkB] ≠ some [] := by
  refine ⟨by decide, ?_⟩
  intro hcontra
  exact absurd ((by decide : buscarDocs [((1 : ℚ), (-1 : ℤ))] [demoChunkA, demoChunkB]
    = some [("score", PyVal.num 1) :: demoChunkB]) ▸ hcontra) (by decide)

/-- C2 (amended): positions `≥ len(chunks)` are silently skipped and no
out-of-range fault reaches the caller, *provided* every position is at
least `-len(chunks)`; negative positions are **not** skipped — they pass
the guard `idx < len(chunks)` and select a chunk counting from the end
(`-1` yields the last chunk), as `buscarSpec`'s use of `pyIndex` makes
explicit. -/
theorem retrieve_bounds_amended (pairs : List (ℚ × ℤ)) (chunks : List PyDict)
    (h : ∀ si ∈ pairs, -(chunks.length : ℤ) ≤ si.2) :
    buscarDocs pairs chunks = some (buscarSpec pairs chunks) :=
  buscarDocs_eq_spec pairs chunks h

/-- C2 witness: the amended theorem applied to a position list holding
an in-range, an out-of-range and a negative position. -/
theorem retrieve_bounds_amended_witness :
    buscarDocs [((3 : ℚ), 0), ((2 : ℚ), 5), ((1 : ℚ), -1)] [demoChunkA, demoChunkB]
      = some (buscarSpec [((3 : ℚ), 0), ((2 : ℚ), 5), ((1 : ℚ), -1)] [demoChunkA, demoChunkB]) :=
  retrieve_bounds_amended [((3 : ℚ), 0), ((2 : ℚ), 5), ((1 : ℚ), -1)]
    [demoChunkA, demoChunkB] (by decide)

/-- C6: the result list preserves the Vector Index's order — the
returned `score` column is a sublist (same relative order) of the
index's score column — so whenever the index's score array is sorted in
descending order, the returned scores are sorted in descending order. -/
theorem retrieve_order_preserved (pairs : List (ℚ × ℤ)) (chunks : List PyDict)
    (res : List PyDict) (h : buscarDocs pairs chunks = some res)
    (hs : List.Sorted (· ≥ ·) (pairs.map Prod.fst)) :
    ∃ scores : List ℚ,
      res.map (fun r => lookupKey r "score") = scores.map (fun q => some (PyVal.num q)) ∧
      List.Sublist scores (pairs.map Prod.fst) ∧
      List.Sorted (· ≥ ·) scores := by
  obtain ⟨scores, hsub, hmap⟩ := buscarDocs_sound pairs chunks res h
  exact ⟨scores, hmap, hsub, hs.sublist hsub⟩

/-- C6 witness: the theorem applied to a descending score column
`[3, 1]` over a two-chunk store. -/
theorem retrieve_order_preserved_witness :
    ∃ scores : List ℚ,
      ([("score", PyVal.num 3) :: demoChunkA, ("score", PyVal.num 1) :: demoChunkB] :
          List PyDict).map (fun r => lookupKey r "score")
        = scores.map (fun q => some (PyVal.num q)) ∧
      List.Sublist scores ([((3 : ℚ), (0 : ℤ)), ((1 : ℚ), 1)].map Prod.fst) ∧
      List.Sorted (· ≥ ·) scores :=
  retrieve_order_preserved [((3 : ℚ), (0 : ℤ)), ((1 : ℚ), 1)] [demoChunkA, demoChunkB]
    _ (by decide) (by decide)

/-- C8: `buscar_documentos` has no side effect on the loaded state: the
state after a run equals the state before it — in particular the chunk
store (no stored chunk gains a `score` entry, since the score is written
to a fresh copy), the FAISS index and the case configuration are all
unchanged. -/
theorem retrieve_no_side_effects (st : AppState) (consulta : String) (top_k : ℕ) :
    (buscar_documentos_run st consulta top_k).2 = st ∧
    (buscar_documentos_run st consulta top_k).2.chunks = st.chunks ∧
    (buscar_documentos_run st consulta top_k).2.index = st.index ∧
    (buscar_documentos_run st consulta top_k).2.config = st.config := by
  have h := buscarDocsSt_eq (st.index.search (st.modelo.encode consulta) top_k) st.chunks
  refine ⟨?_, ?_, ?_, ?_⟩ <;> simp [buscar_documentos_run, h]

/-- C7: `buscar_documentos` is deterministic: with the loaded state
fixed, encoding the same query twice yields the same vector, and running
the retrieval twice in sequence (the second run on the state left by the
first) yields the identical result list. -/
theorem retrieve_deterministic (st : AppState) (consulta : String) (top_k : ℕ) :
    st.modelo.encode consulta = st.modelo.encode consulta ∧
    (buscar_documentos_run (buscar_documentos_run st consulta top_k).2 consulta top_k).1
      = (buscar_documentos_run st consulta top_k).1 := by
  have h : (buscar_documentos_run st consulta top_k).2 = st := by
    have := buscarDocsSt_eq (st.index.search (st.modelo.encode consulta) top_k) st.chunks
    simp [buscar_documentos_run, this]
  rw [h]
  exact ⟨rfl, rfl⟩

/-- Shared helper: on well-shaped fragments `consultar_deepseek`
returns a string that is either the extracted message content or
carries the error header, whatever the network outcome. -/
theorem consultar_ok_cases (net : NetOutcome) (consulta : String)
    (resultados : List PyDict) (h : ∀ r ∈ resultados, wfFrag r = true) :
    ∃ s, consultar_deepseek net consulta resultados = Except.ok s ∧
      ((∃ m, s = errorHeader ++ m) ∨
       ∃ resp, net = NetOutcome.responded resp ∧ resp.status < 400 ∧
         resp.contentAtPath = some s) := by
  have hctx := contexto_build_wf resultados h
  cases net with
  | raised e =>
    exact ⟨errorHeader ++ e, by simp [consultar_deepseek, hctx, Bind.bind, Except.bind],
      Or.inl ⟨e, rfl⟩⟩
  | responded resp =>
    by_cases hst : 400 ≤ resp.status
    · refine ⟨errorHeader ++ "HTTPError: " ++ toString resp.status,
        by simp [consultar_deepseek, hctx, hst, Bind.bind, Except.bind], ?_⟩
      exact Or.inl ⟨"HTTPError: " ++ toString resp.status, by simp [String.append_assoc]⟩
    · cases hc : resp.contentAtPath with
      | some c =>
        exact ⟨c, by simp [consultar_deepseek, hctx, hst, hc, Bind.bind, Except.bind],
          Or.inr ⟨resp, rfl, by omega, hc⟩⟩
      | none =>
        exact ⟨errorHeader ++ "KeyError: choices",
          by simp [consultar_deepseek, hctx, hst, hc, Bind.bind, Except.bind],
          Or.inl ⟨"KeyError: choices", rfl⟩⟩

/-- C3: for every outcome of the remote call (raised network error or
timeout, HTTP error status, or a response lacking the expected JSON
path) and every list of well-shaped ScoredChunk fragments,
`consultar_deepseek` lets no exception escape: it returns a string that
is either the model's message content or carries the designated
`"Error al consultar IA: "` header. -/
theorem consultar_no_uncaught (net : NetOutcome) (consulta : String)
    (resultados : List PyDict) (h : ∀ r ∈ resultados, wfFrag r = true) :
    ∃ s, consultar_deepseek net consulta resultados = Except.ok s ∧
      ((∃ m, s = errorHeader ++ m) ∨
       ∃ resp, net = NetOutcome.responded resp ∧ resp.status < 400 ∧
         resp.contentAtPath = some s) :=
  consultar_ok_cases net consulta resultados h

/-- C3 witness: the theorem applied to a timed-out call with an empty
fragment list. -/
theorem consultar_no_uncaught_witness :
    ∃ s, consultar_deepseek (NetOutcome.raised "ReadTimeout") "q" [] = Except.ok s ∧
      ((∃ m, s = errorHeader ++ m) ∨
       ∃ resp, NetOutcome.raised "ReadTimeout" = NetOutcome.responded resp ∧
         resp.status < 400 ∧ resp.contentAtPath = some s) :=
  consultar_no_uncaught (NetOutcome.raised "ReadTimeout") "q" [] (by simp)

/-- C5: on every fragment list whose elements carry the required fields,
the context block built by `consultar_deepseek` is exactly the block the
spec describes (numbered headers with document name, type, page, score
to 3 decimals and comma-joined persons or `N/A`, each followed by the
raw text, blank-line separated); on the empty list the block is the
empty string and prompt construction still succeeds. -/
theorem contexto_matches_spec (resultados : List PyDict)
    (h : ∀ r ∈ resultados, wfFrag r = true) :
    contexto_build resultados = Except.ok (contexto_spec resultados) ∧
    contexto_spec ([] : List PyDict) = "" ∧
    contexto_build ([] : List PyDict) = Except.ok "" ∧
    ∀ consulta, system_prompt_format (contexto_spec []) consulta
      = sysPromptPre ++ "" ++ sysPromptMid ++ consulta := by
  refine ⟨contexto_build_wf resultados h, rfl, rfl, fun consulta => rfl⟩

/-- C5 witness: the theorem applied to a one-fragment list. -/
theorem contexto_matches_spec_witness :
    contexto_build [("score", PyVal.num 1) :: demoChunkB]
      = Except.ok (contexto_spec [("score", PyVal.num 1) :: demoChunkB]) ∧
    contexto_spec ([] : List PyDict) = "" ∧
    contexto_build ([] : List PyDict) = Except.ok "" ∧
    ∀ consulta, system_prompt_format (contexto_spec []) consulta
      = sysPromptPre ++ "" ++ sysPromptMid ++ consulta :=
  contexto_matches_spec [("score", PyVal.num 1) :: demoChunkB] (by decide)

/-- C10 counterexample: a fragment that *contains* all five keys but
whose `score` value is a string makes the f-string raise ValueError
outside the `try`, so the function does not return a string — containing
the keys is not sufficient. -/
theorem consultar_keys_not_sufficient_cex :
    consultar_deepseek (NetOutcome.raised "x") "q" [fragScoreStr]
      = Except.error "ValueError: unknown format code f" ∧
    ∀ s, consultar_deepseek (NetOutcome.raised "x") "q" [fragScoreStr] ≠ Except.ok s := by
  have h1 : consultar_deepseek (NetOutcome.raised "x") "q" [fragScoreStr]
      = Except.error "ValueError: unknown format code f" := rfl
  exact ⟨h1, fun s hs => Except.noConfusion (h1.symm.trans hs)⟩

/-- C10 (amended): the `try` in `consultar_deepseek` covers only the
outbound call and response decoding, not the prompt construction: for
every fragment list whose elements carry the five read keys with a
numeric `score` (and, when present, a list of strings under
`personas_mencionadas`), the function always returns a string, whatever
the network outcome; while a fragment lacking one of the keys — here
`texto` — makes the function raise an uncaught KeyError before any call,
instead of returning the prefixed error string. -/
theorem consultar_try_scope_amended :
    (∀ (net : NetOutcome) (consulta : String) (resultados : List PyDict),
        (∀ r ∈ resultados, wfFrag r = true) →
        ∃ s, consultar_deepseek net consulta resultados = Except.ok s) ∧
    (∀ (net : NetOutcome) (consulta : String),
        consultar_deepseek net consulta [fragSinTexto] = Except.error "KeyError: texto") := by
  constructor
  · intro net consulta resultados h
    obtain ⟨s, hs, _⟩ := consultar_ok_cases net consulta resultados h
    exact ⟨s, hs⟩
  · intro net consulta
    have hctx : contexto_build [fragSinTexto] = Except.error "KeyError: texto" := rfl
    simp [consultar_deepseek, hctx, Bind.bind, Except.bind]

/-- C10 witness: the first part of the amended theorem applied to a
raised call on the empty fragment list. -/
theorem consultar_try_scope_amended_witness :
    ∃ s, consultar_deepseek (NetOutcome.raised "ReadTimeout") "consulta" []
      = Except.ok s :=
  consultar_try_scope_amended.1 (NetOutcome.raised "ReadTimeout") "consulta" [] (by simp)

/-- C4: when the index file or the chunk-store file is absent,
`cargar_indice` yields the sentinel pair `(None, None)` — not an empty
result set — and `main`, observing that sentinel, refuses to run any
query. -/
theorem cargar_indice_sentinel (indexExists chunksExists : Bool)
    (indexFile : FaissIndex) (chunksFile : List PyDict)
    (h : indexExists = false ∨ chunksExists = false) :
    cargar_indice indexExists chunksExists indexFile chunksFile = (none, none) ∧
    cargar_indice indexExists chunksExists indexFile chunksFile ≠ (some indexFile, some []) ∧
    main_refuses_queries
      (cargar_indice indexExists chunksExists indexFile chunksFile).1
      (cargar_indice indexExists chunksExists indexFile chunksFile).2 = true := by
  rcases h with h | h <;> subst h <;>
    simp [cargar_indice, main_refuses_queries]

/-- C4 witness: the theorem applied with the index file missing. -/
theorem cargar_indice_sentinel_witness :
    cargar_indice false true demoIndex [demoChunkA] = (none, none) ∧
    cargar_indice false true demoIndex [demoChunkA] ≠ (some demoIndex, some []) ∧
    main_refuses_queries (cargar_indice false true demoIndex [demoChunkA]).1
      (cargar_indice false true demoIndex [demoChunkA]).2 = true :=
  cargar_indice_sentinel false true demoIndex [demoChunkA] (Or.inl rfl)

/-- C9: the login attempt authenticates exactly when the submitted
username is a key of the credential mapping and the mapped password
equals the submitted password by plain string comparison; on any other
pair the session state is unchanged and the visible rejection message
`"Credenciales incorrectas"` is produced; logout returns the state to
unauthenticated. -/
theorem login_transition_correct (usuarios : List (String × String))
    (st : SessionState) (usuario clave : String) (h : st.autenticado = false) :
    ((verificar_login_attempt usuarios st usuario clave).1.autenticado = true
        ↔ lookupKey usuarios usuario = some clave) ∧
    (lookupKey usuarios usuario = some clave →
      verificar_login_attempt usuarios st usuario clave
        = ({ autenticado := true, usuario := some usuario }, none)) ∧
    (lookupKey usuarios usuario ≠ some clave →
      verificar_login_attempt usuarios st usuario clave
        = (st, some "Credenciales incorrectas")) ∧
    cerrar_sesion (verificar_login_attempt usuarios st usuario clave).1
      = { autenticado := false, usuario := none } := by
  by_cases hl : lookupKey usuarios usuario = some clave
  · simp [verificar_login_attempt, cerrar_sesion, hl]
  · simp [verificar_login_attempt, cerrar_sesion, hl, h]

/-- C9 witness: the theorem applied to the hard-coded credential table,
an unauthenticated session and the first hard-coded user. -/
theorem login_transition_correct_witness :
    ((verificar_login_attempt USUARIOS ⟨false, none⟩ "raul" "caso2024").1.autenticado = true
        ↔ lookupKey USUARIOS "raul" = some "caso2024") ∧
    (lookupKey USUARIOS "raul" = some "caso2024" →
      verificar_login_attempt USUARIOS ⟨false, none⟩ "raul" "caso2024"
        = ({ autenticado := true, usuario := some "raul" }, none)) ∧
    (lookupKey USUARIOS "raul" ≠ some "caso2024" →
      verificar_login_attempt USUARIOS ⟨false, none⟩ "raul" "caso2024"
        = (⟨false, none⟩, some "Credenciales incorrectas")) ∧
    cerrar_sesion (verificar_login_attempt USUARIOS ⟨false, none⟩ "raul" "caso2024").1
      = { autenticado := false, usuario := none } :=
  login_transition_correct USUARIOS ⟨false, none⟩ "raul" "caso2024" rfl
